import Mathlib

/-!
Shallow embedding of the streaming feature/anomaly engine of the
IOT-AWS-Pipeline repository (Lambda handlers `data_transformer.py`,
`inference_and_alert.py`, `terraform_iot_event.py`, the Glue job
`etl_job.py` and the SageMaker script `inference.py`).

Python floats are modelled as rationals (ℚ); Python division is modelled
by `pydiv`, which fails (models `ZeroDivisionError`) exactly on a zero
denominator.  A JSON field value is modelled by `Value`, abstracting the
coercibility behaviour of Python's `float(...)` and `int(...)`:
a JSON number converts under both, a numeric string converts under
`float` and under `int` exactly when it is an integer literal, a
non-numeric string and `null` convert under neither.  A JSON object is
an association list `List (String × Value)` looked up by key.
-/

namespace IotPipeline

/-- Truncation toward zero, the semantics of Python `int()` on a float. -/
def qtrunc (q : ℚ) : ℤ := if 0 ≤ q then ⌊q⌋ else ⌈q⌉

/-- Model of a JSON field value, abstracted to the coercion behaviour the
validators test: `vNum` is a JSON number, `vNumStr` a numeric string
(with a flag recording whether it is an integer literal, the condition
for Python `int()` to accept it), `vBadStr` a non-numeric string and
`vNull` a JSON null. -/
inductive Value where
  | vNum (q : ℚ)
  | vNumStr (q : ℚ) (intLit : Bool)
  | vBadStr (s : String)
  | vNull
deriving DecidableEq

/-- Python `float(x)`: succeeds on numbers and numeric strings. -/
def Value.toFloat? : Value → Option ℚ
  | .vNum q => some q
  | .vNumStr q _ => some q
  | .vBadStr _ => none
  | .vNull => none

/-- Python `int(x)`: succeeds on numbers (truncating) and on integer
string literals. -/
def Value.toInt? : Value → Option ℤ
  | .vNum q => some (qtrunc q)
  | .vNumStr q intLit => if intLit then some (qtrunc q) else none
  | .vBadStr _ => none
  | .vNull => none

/-- Python float division: raises `ZeroDivisionError` on a zero
denominator, modelled as `none`. -/
def pydiv (a b : ℚ) : Option ℚ := if b = 0 then none else some (a / b)

/-- Rejection reasons raised by the validators
(`DataTransformationError` / `DataValidationError` messages collapse to
the two kinds the spec names). -/
inductive RejectReason where
  | missingField (f : String)
  | typeError
deriving DecidableEq

/-- Embedding of `validate_transformed_data` (data_transformer.py,
lines 131-159): the five required fields are checked for presence in
order, then `float()` is attempted on the three metrics and `int()` on
the timestamp, in order; the first failure raises. -/
def validate_transformed_data (data : List (String × Value)) : Except RejectReason Bool :=
  if (data.lookup "machine_id").isNone then .error (.missingField "machine_id")
  else if (data.lookup "temperature").isNone then .error (.missingField "temperature")
  else if (data.lookup "vibration").isNone then .error (.missingField "vibration")
  else if (data.lookup "pressure").isNone then .error (.missingField "pressure")
  else if (data.lookup "timestamp").isNone then .error (.missingField "timestamp")
  else if ((data.lookup "temperature").bind Value.toFloat?).isNone then .error .typeError
  else if ((data.lookup "vibration").bind Value.toFloat?).isNone then .error .typeError
  else if ((data.lookup "pressure").bind Value.toFloat?).isNone then .error .typeError
  else if ((data.lookup "timestamp").bind Value.toInt?).isNone then .error .typeError
  else .ok true

/-- Embedding of `validate_sensor_data` (inference_and_alert.py, lines
36-75): presence of the three metrics, then `float()` coercion; range
checks only emit `logger.warning` messages, returned here as the list of
warnings so the theorems can talk about them.  The function never
modifies the record it validates. -/
def validate_sensor_data (data : List (String × Value)) : Except RejectReason (List String) :=
  if (data.lookup "temperature").isNone then .error (.missingField "temperature")
  else if (data.lookup "vibration").isNone then .error (.missingField "vibration")
  else if (data.lookup "pressure").isNone then .error (.missingField "pressure")
  else
    match (data.lookup "temperature").bind Value.toFloat?,
          (data.lookup "vibration").bind Value.toFloat?,
          (data.lookup "pressure").bind Value.toFloat? with
    | some t, some v, some p =>
        .ok ((if 0 ≤ t ∧ t ≤ 200 then [] else ["Temperature out of expected range"]) ++
             (if 0 ≤ v ∧ v ≤ 10 then [] else ["Vibration out of expected range"]) ++
             (if 0 ≤ p ∧ p ≤ 200 then [] else ["Pressure out of expected range"]))
    | _, _, _ => .error .typeError

/-- The `sensor_data` dict built by `lambda_handler`
(inference_and_alert.py, lines 245-249): exactly the three metric keys,
forwarded unchanged to validation, feature preparation and alerting. -/
def sensor_record (t v p : Value) : List (String × Value) :=
  [("temperature", t), ("vibration", v), ("pressure", p)]

/-- A validated reading: the three metric values as rationals. -/
structure Reading where
  temperature : ℚ
  vibration : ℚ
  pressure : ℚ
deriving DecidableEq

/-- Embedding of the `is_anomaly_temp` column of `process_sensor_data`
(etl_job.py, line 78-80): `when(col("temperature") > 80, 1).otherwise(0)`. -/
def is_anomaly_temp (r : Reading) : ℤ := if r.temperature > 80 then 1 else 0

/-- Embedding of the `is_anomaly_vib` column (etl_job.py, lines 81-83). -/
def is_anomaly_vib (r : Reading) : ℤ := if r.vibration > 2 then 1 else 0

/-- Embedding of the `is_anomaly_pressure` column (etl_job.py, lines 84-86). -/
def is_anomaly_pressure (r : Reading) : ℤ := if r.pressure > 150 then 1 else 0

/-- Embedding of the `total_anomaly_score` column (etl_job.py, lines
87-90): the sum of the three flags. -/
def total_anomaly_score (r : Reading) : ℤ :=
  is_anomaly_temp r + is_anomaly_vib r + is_anomaly_pressure r

/-- Last element of `r :: rs`, mirroring Python's `list[-1]`. -/
def lastD : Reading → List Reading → Reading
  | r, [] => r
  | _, s :: rs => lastD s rs

/-- One trend comparison of `detect_trends`: newest against oldest with
a per-metric delta threshold. -/
def trendOf (thr old new : ℚ) : String :=
  if new > old + thr then "increasing"
  else if new < old - thr then "decreasing"
  else "stable"

/-- Embedding of `detect_trends` (data_transformer.py, lines 60-103).
With fewer than 3 readings it returns the single-entry dict
`{"trend": "insufficient_data"}`; otherwise it returns per-metric
entries comparing the last reading against the first with thresholds 5
(temperature), 0.5 (vibration) and 10 (pressure). -/
def detect_trends : List Reading → List (String × String)
  | r0 :: _ :: r2 :: rest =>
      let rn := lastD r2 rest
      [("temp_trend", trendOf 5 r0.temperature rn.temperature),
       ("vib_trend", trendOf (1/2) r0.vibration rn.vibration),
       ("pressure_trend", trendOf 10 r0.pressure rn.pressure)]
  | _ => [("trend", "insufficient_data")]

/-- Mean of a list of rationals (`statistics.mean`); junk value 0 on the
empty list, which the callers guard against. -/
def meanOf (l : List ℚ) : ℚ := l.sum / (l.length : ℚ)

/-- Square of the stddev value reported by
`calculate_statistical_features`: the code stores
`statistics.stdev(xs) if len(xs) > 1 else 0`, and `statistics.stdev` is
the square root of the sample variance (denominator n−1).  Squares are
used so the development stays inside ℚ; since the reported stddev and
any candidate value are nonnegative and `Real.sqrt` is injective on
nonnegatives, every equality or disequality of stddevs is equivalent to
that of their squares. -/
def std_sq (l : List ℚ) : ℚ :=
  if 1 < l.length then ((l.map (fun x => (x - meanOf l) ^ 2)).sum) / ((l.length : ℚ) - 1)
  else 0

/-- Minimum of a list (`min(xs)` in Python); junk value 0 on the empty
list, unreachable behind the nonempty guard of the caller. -/
def minOf : List ℚ → ℚ
  | [] => 0
  | x :: xs => xs.foldl min x

/-- Maximum of a list (`max(xs)` in Python); junk value 0 on the empty
list, unreachable behind the nonempty guard of the caller. -/
def maxOf : List ℚ → ℚ
  | [] => 0
  | x :: xs => xs.foldl max x

/-- The per-metric slice of the feature dict built by
`calculate_statistical_features`: mean, (squared) stddev, min, max. -/
structure StatFeatures where
  fmean : ℚ
  fstdSq : ℚ
  fmin : ℚ
  fmax : ℚ
deriving DecidableEq

/-- Statistics of one metric column. -/
def statsOf (l : List ℚ) : StatFeatures :=
  ⟨meanOf l, std_sq l, minOf l, maxOf l⟩

/-- Embedding of `calculate_statistical_features` (data_transformer.py,
lines 26-58): `{}` (here `none`) on an empty window, otherwise the
temperature, vibration and pressure statistics. -/
def calculate_statistical_features : List Reading → Option (StatFeatures × StatFeatures × StatFeatures)
  | [] => none
  | r :: rs =>
      some (statsOf ((r :: rs).map Reading.temperature),
            statsOf ((r :: rs).map Reading.vibration),
            statsOf ((r :: rs).map Reading.pressure))

/-- Spec-side definition, for comparison only (the claim about stddev
speaks of the population standard deviation): population variance, the
square of the population stddev, with denominator n. -/
def popVariance (l : List ℚ) : ℚ :=
  ((l.map (fun x => (x - meanOf l) ^ 2)).sum) / (l.length : ℚ)

/-- Embedding of `prepare_features` (inference_and_alert.py, lines
77-97), reduced to the two derived ratios it adds; `enrich_sensor_data`
(data_transformer.py, lines 121-123) computes the same two quotients.
Division models `ZeroDivisionError` via `pydiv`. -/
def prepare_features (t v p : ℚ) : Option (ℚ × ℚ) :=
  match pydiv t (v + 1/1000), pydiv p (t + 1/1000) with
  | some a, some b => some (a, b)
  | _, _ => none

/-- MAX_RETRIES constant (inference_and_alert.py, line 25). -/
def MAX_RETRIES : ℕ := 3

/-- RETRY_DELAY constant in seconds (inference_and_alert.py, line 26). -/
def RETRY_DELAY : ℕ := 1

/-- Embedding of the retry loop of `lambda_handler`
(inference_and_alert.py, lines 257-267).  `predict i` is the outcome of
`invoke_sagemaker_endpoint` on attempt `i` (error models
`AnomalyDetectionError`).  The recursion is on the number of remaining
iterations of `for attempt in range(MAX_RETRIES)`; on a non-final
failure the loop sleeps `RETRY_DELAY * (attempt + 1)` seconds and the
second component accumulates the total time slept; on the final failure
the exception is re-raised. -/
def retryFrom (predict : ℕ → Except Unit ℤ) : ℕ → ℕ → Except Unit ℤ × ℕ
  | 0, slept => (.error (), slept)
  | remaining + 1, slept =>
    let attempt := MAX_RETRIES - (remaining + 1)
    match predict attempt with
    | .ok n => (.ok n, slept)
    | .error e =>
      if remaining = 0 then (.error e, slept)
      else retryFrom predict remaining (slept + RETRY_DELAY * (attempt + 1))

/-- The full retry loop started with attempt 0 and no time slept. -/
def invoke_with_retry (predict : ℕ → Except Unit ℤ) : Except Unit ℤ × ℕ :=
  retryFrom predict MAX_RETRIES 0

/-- Outcome of one `lambda_handler` call, as seen by the caller. -/
inductive HandlerOutcome where
  | success (prediction : ℤ)
  | failure (statusCode : ℕ)
deriving DecidableEq

/-- The classification path of `lambda_handler`
(inference_and_alert.py): the retry loop, and the
`except AnomalyDetectionError` handler (lines 300-308) that turns the
re-raised model error into a `statusCode 500` response.  No rule-based
fallback verdict exists anywhere on this path. -/
def lambda_handler_classify (predict : ℕ → Except Unit ℤ) : HandlerOutcome :=
  match (invoke_with_retry predict).1 with
  | .ok n => .success n
  | .error _ => .failure 500

/-- Python dict assignment `d[k] = v` on an association list: overwrite
in place if the key exists, append otherwise. -/
def setKey (k : String) (v : Value) (d : List (String × Value)) : List (String × Value) :=
  if (d.lookup k).isSome then d.map (fun kv => if kv.1 = k then (k, v) else kv)
  else d ++ [(k, v)]

/-- Embedding of `enrich_sensor_data` (data_transformer.py, lines
105-129): add `timestamp` (ingestion time `now`) if absent, compute the
two ratio fields (KeyError / ValueError / ZeroDivisionError model as
`none`), add `processed_at` and `data_version` metadata. -/
def enrich_sensor_data (now : ℤ) (record : List (String × Value)) : Option (List (String × Value)) :=
  let d := if (record.lookup "timestamp").isSome then record
           else setKey "timestamp" (.vNum (now : ℚ)) record
  match (d.lookup "temperature").bind Value.toFloat?,
        (d.lookup "vibration").bind Value.toFloat?,
        (d.lookup "pressure").bind Value.toFloat? with
  | some t, some v, some p =>
    match pydiv t (v + 1/1000), pydiv p (t + 1/1000) with
    | some a, some b =>
        some (setKey "data_version" (.vNumStr 1 false)
               (setKey "processed_at" (.vBadStr "utc-iso")
                 (setKey "pressure_temp_quot" (.vNum b)
                   (setKey "temp_vib_quot" (.vNum a) d))))
    | _, _ => none
  | _, _, _ => none

/-- One incoming record of the transformer event: either a payload that
parsed as JSON or a malformed record whose parse raises. -/
inductive RawRecord where
  | malformed
  | payload (data : List (String × Value))

/-- The body of the per-record `try` block of the transformer
`lambda_handler` (data_transformer.py, lines 181-201): parse, enrich,
validate; any failure is caught and the record is skipped. -/
def process_record (now : ℤ) : RawRecord → Option (List (String × Value))
  | .malformed => none
  | .payload data =>
    match enrich_sensor_data now data with
    | none => none
    | some enriched =>
      match validate_transformed_data enriched with
      | .error _ => none
      | .ok _ => some enriched

/-- The `for record in event["Records"]` loop with its
`except ... continue` (data_transformer.py, lines 179-201): failed
records are skipped, successes are appended to `processed_records`. -/
def process_loop (now : ℤ) : List RawRecord → List (List (String × Value))
  | [] => []
  | r :: rs =>
    match process_record now r with
    | none => process_loop now rs
    | some e => e :: process_loop now rs

/-- The feature extraction of `input_fn` for one metric key
(inference.py, lines 72-77): a missing key is substituted with the
default 0.0 (after a logged warning); a present key goes through
`float()`, which may raise. -/
def featureOrDefault (body : List (String × Value)) (k : String) : Option ℚ :=
  match body.lookup k with
  | none => some 0
  | some v => v.toFloat?

/-- Embedding of `input_fn` (inference.py, lines 53-91): the three
metrics (with the missing-key default), then the two derived ratios
computed from the substituted values; any raised exception (bad
`float()`, `ZeroDivisionError`) propagates as `none`. -/
def input_fn (body : List (String × Value)) : Option (List ℚ) :=
  match featureOrDefault body "temperature",
        featureOrDefault body "vibration",
        featureOrDefault body "pressure" with
  | some t, some v, some p =>
    match pydiv t (v + 1/1000), pydiv p (t + 1/1000) with
    | some a, some b => some [t, v, p, a, b]
    | _, _ => none
  | _, _, _ => none

/-- A well-formed example payload used by witnesses: all five required
fields present and coercible. -/
def goodPayload : List (String × Value) :=
  [("machine_id", .vBadStr "machine_001"), ("temperature", .vNum 85),
   ("vibration", .vNum 1), ("pressure", .vNum 100), ("timestamp", .vNum 1000)]

/-- C2: for every validated reading the enricher sets
`is_anomaly_temp = 1` iff temperature > 80, `is_anomaly_vib = 1` iff
vibration > 2.0, `is_anomaly_pressure = 1` iff pressure > 150, the rule
anomaly score is the sum of the three flags and lies in 0..3; and the
input temperature=85, vibration=1.0, pressure=100 yields flag values
1, 0, 0 with score 1. -/
theorem C2_rule_flags :
    (∀ r : Reading,
      (is_anomaly_temp r = 1 ↔ r.temperature > 80) ∧
      (is_anomaly_temp r = 0 ↔ ¬ r.temperature > 80) ∧
      (is_anomaly_vib r = 1 ↔ r.vibration > 2) ∧
      (is_anomaly_vib r = 0 ↔ ¬ r.vibration > 2) ∧
      (is_anomaly_pressure r = 1 ↔ r.pressure > 150) ∧
      (is_anomaly_pressure r = 0 ↔ ¬ r.pressure > 150) ∧
      total_anomaly_score r = is_anomaly_temp r + is_anomaly_vib r + is_anomaly_pressure r ∧
      0 ≤ total_anomaly_score r ∧ total_anomaly_score r ≤ 3) ∧
    (is_anomaly_temp ⟨85, 1, 100⟩ = 1 ∧ is_anomaly_vib ⟨85, 1, 100⟩ = 0 ∧
     is_anomaly_pressure ⟨85, 1, 100⟩ = 0 ∧ total_anomaly_score ⟨85, 1, 100⟩ = 1) := by
  constructor
  · intro r
    have ht : (is_anomaly_temp r = 1 ↔ r.temperature > 80) ∧
        (is_anomaly_temp r = 0 ↔ ¬ r.temperature > 80) := by
      unfold is_anomaly_temp; split_ifs with h <;> simp [h]
    have hv : (is_anomaly_vib r = 1 ↔ r.vibration > 2) ∧
        (is_anomaly_vib r = 0 ↔ ¬ r.vibration > 2) := by
      unfold is_anomaly_vib; split_ifs with h <;> simp [h]
    have hp : (is_anomaly_pressure r = 1 ↔ r.pressure > 150) ∧
        (is_anomaly_pressure r = 0 ↔ ¬ r.pressure > 150) := by
      unfold is_anomaly_pressure; split_ifs with h <;> simp [h]
    have hb : 0 ≤ total_anomaly_score r ∧ total_anomaly_score r ≤ 3 := by
      unfold total_anomaly_score is_anomaly_temp is_anomaly_vib is_anomaly_pressure
      split_ifs <;> norm_num
    exact ⟨ht.1, ht.2, hv.1, hv.2, hp.1, hp.2, rfl, hb.1, hb.2⟩
  · refine ⟨?_, ?_, ?_, ?_⟩ <;> decide

/-- C6: for vibration ≥ 0 and temperature ≥ 0 the two derived ratios of
`prepare_features` (and `enrich_sensor_data`) are defined — the 0.001
epsilon keeps both denominators nonzero, so no `ZeroDivisionError` is
raised and the quotients are the finite rationals shown. -/
theorem C6_ratios_defined (t v p : ℚ) (hv : 0 ≤ v) (ht : 0 ≤ t) :
    prepare_features t v p = some (t / (v + 1/1000), p / (t + 1/1000)) := by
  have h1 : v + 1/1000 ≠ 0 := by positivity
  have h2 : t + 1/1000 ≠ 0 := by positivity
  unfold prepare_features pydiv
  rw [if_neg h1, if_neg h2]

/-- Witness for C6 at the concrete reading (85, 1, 100). -/
theorem C6_ratios_defined_witness :
    prepare_features 85 1 100 = some (85 / (1 + 1/1000), 100 / (85 + 1/1000)) :=
  C6_ratios_defined 85 1 100 (by norm_num) (by norm_num)

/-- C5 counterexample: a well-typed reading with temperature 300 (out of
the 0..200 range) passes validation — only a warning is logged — but the
reading that passes through is the unchanged three-key record, which
carries no `range_warning` field at all; the code never tags records. -/
theorem C5_counterexample :
    validate_sensor_data (sensor_record (.vNum 300) (.vNum 1) (.vNum 100)) =
      .ok ["Temperature out of expected range"] ∧
    (sensor_record (.vNum 300) (.vNum 1) (.vNum 100)).lookup "range_warning" = none := by
  constructor
  · rfl
  · rfl

/-- C5 amended: range checks are advisory — every well-typed reading
passes `validate_sensor_data` whatever its values, each out-of-range
metric only contributes a logged warning, and the reading itself is
never modified: it carries no `range_warning` field. -/
theorem C5_range_advisory (t v p : ℚ) :
    validate_sensor_data (sensor_record (.vNum t) (.vNum v) (.vNum p)) =
      .ok ((if 0 ≤ t ∧ t ≤ 200 then [] else ["Temperature out of expected range"]) ++
           (if 0 ≤ v ∧ v ≤ 10 then [] else ["Vibration out of expected range"]) ++
           (if 0 ≤ p ∧ p ≤ 200 then [] else ["Pressure out of expected range"])) ∧
    (∀ w, validate_sensor_data (sensor_record (.vNum t) (.vNum v) (.vNum p)) = .ok w →
      (("Temperature out of expected range" ∈ w) ↔ ¬ (0 ≤ t ∧ t ≤ 200)) ∧
      (("Vibration out of expected range" ∈ w) ↔ ¬ (0 ≤ v ∧ v ≤ 10)) ∧
      (("Pressure out of expected range" ∈ w) ↔ ¬ (0 ≤ p ∧ p ≤ 200))) ∧
    (sensor_record (.vNum t) (.vNum v) (.vNum p)).lookup "range_warning" = none := by
  refine ⟨rfl, ?_, rfl⟩
  intro w hw
  rw [show validate_sensor_data (sensor_record (.vNum t) (.vNum v) (.vNum p)) =
        .ok ((if 0 ≤ t ∧ t ≤ 200 then [] else ["Temperature out of expected range"]) ++
             (if 0 ≤ v ∧ v ≤ 10 then [] else ["Vibration out of expected range"]) ++
             (if 0 ≤ p ∧ p ≤ 200 then [] else ["Pressure out of expected range"])) from rfl] at hw
  injection hw with hw
  subst hw
  refine ⟨?_, ?_, ?_⟩ <;> split_ifs <;> simp_all

/-- Witness for C5 at the concrete out-of-range reading (300, 1, 100):
the temperature warning is among the logged warnings while validation
succeeded. -/
theorem C5_range_advisory_witness :
    "Temperature out of expected range" ∈
      ((if (0 : ℚ) ≤ 300 ∧ (300 : ℚ) ≤ 200 then [] else ["Temperature out of expected range"]) ++
       (if (0 : ℚ) ≤ 1 ∧ (1 : ℚ) ≤ 10 then [] else ["Vibration out of expected range"]) ++
       (if (0 : ℚ) ≤ 100 ∧ (100 : ℚ) ≤ 200 then [] else ["Pressure out of expected range"])) :=
  (((C5_range_advisory 300 1 100).2.1 _ (C5_range_advisory 300 1 100).1).1).mpr (by norm_num)

/-- C3 counterexample: on a window of 2 readings `detect_trends` does
not report `insufficient_data` for each metric individually — the
per-metric keys are absent altogether; the code returns the single
global entry `("trend", "insufficient_data")` instead. -/
theorem C3_counterexample :
    (detect_trends [⟨85, 1, 100⟩, ⟨85, 1, 100⟩]).lookup "temp_trend" = none ∧
    (detect_trends [⟨85, 1, 100⟩, ⟨85, 1, 100⟩]).lookup "vib_trend" = none ∧
    (detect_trends [⟨85, 1, 100⟩, ⟨85, 1, 100⟩]).lookup "pressure_trend" = none ∧
    detect_trends [⟨85, 1, 100⟩, ⟨85, 1, 100⟩] = [("trend", "insufficient_data")] := by
  refine ⟨?_, ?_, ?_, rfl⟩ <;> decide

/-- C3 amended: a window of fewer than 3 readings yields the single
global entry `("trend", "insufficient_data")` (no per-metric keys);
with 3 or more readings each metric key holds the direction obtained by
comparing the newest reading against the oldest: increasing exactly
when the newest exceeds the oldest by more than the threshold
(temperature 5, vibration 0.5, pressure 10), decreasing exactly when it
falls short by more than the threshold, and stable otherwise. -/
theorem C3_trends :
    (∀ l : List Reading, l.length < 3 → detect_trends l = [("trend", "insufficient_data")]) ∧
    (∀ r0 r1 r2 : Reading, ∀ rest : List Reading,
      ((detect_trends (r0 :: r1 :: r2 :: rest)).lookup "temp_trend" =
        some (trendOf 5 r0.temperature (lastD r2 rest).temperature)) ∧
      ((detect_trends (r0 :: r1 :: r2 :: rest)).lookup "vib_trend" =
        some (trendOf (1/2) r0.vibration (lastD r2 rest).vibration)) ∧
      ((detect_trends (r0 :: r1 :: r2 :: rest)).lookup "pressure_trend" =
        some (trendOf 10 r0.pressure (lastD r2 rest).pressure))) ∧
    (∀ thr old new : ℚ,
      (trendOf thr old new = "increasing" ↔ new > old + thr) ∧
      (trendOf thr old new = "decreasing" ↔ (¬ new > old + thr ∧ new < old - thr)) ∧
      (trendOf thr old new = "stable" ↔ (¬ new > old + thr ∧ ¬ new < old - thr))) := by
  refine ⟨?_, ?_, ?_⟩
  · intro l hl
    rcases l with _ | ⟨a, _ | ⟨b, _ | ⟨c, rest⟩⟩⟩
    · rfl
    · rfl
    · rfl
    · simp [List.length] at hl
      omega
  · intro r0 r1 r2 rest
    refine ⟨?_, ?_, ?_⟩ <;> simp [detect_trends, List.lookup]
  · intro thr old new
    unfold trendOf
    split_ifs with h1 h2 <;> simp_all

/-- Witness for C3 at concrete windows: a 2-reading window yields the
single global marker, and a 3-reading window whose newest temperature
exceeds the oldest by 10 reports temp_trend = increasing. -/
theorem C3_trends_witness :
    detect_trends [⟨0, 0, 0⟩, ⟨0, 0, 0⟩] = [("trend", "insufficient_data")] ∧
    (detect_trends [⟨0, 0, 0⟩, ⟨0, 0, 0⟩, ⟨10, 0, 0⟩]).lookup "temp_trend" = some "increasing" := by
  constructor
  · exact C3_trends.1 [⟨0, 0, 0⟩, ⟨0, 0, 0⟩] (by simp)
  · have h := (C3_trends.2.1 ⟨0, 0, 0⟩ ⟨0, 0, 0⟩ ⟨10, 0, 0⟩ []).1
    rw [h]
    have h2 := ((C3_trends.2.2 5 0 10).1).mpr (by norm_num)
    simp only [lastD] at h ⊢
    rw [show trendOf 5 (Reading.mk 0 0 0).temperature (Reading.mk 10 0 0).temperature =
          trendOf 5 0 10 from rfl, h2]

/-- Witness for C2 at the concrete reading (85, 1, 100): the
temperature flag is raised. -/
theorem C2_rule_flags_witness : is_anomaly_temp ⟨85, 1, 100⟩ = 1 :=
  ((C2_rule_flags.1 ⟨85, 1, 100⟩).1).mpr (by norm_num)

set_option maxHeartbeats 2000000 in
/-- C4: `validate_transformed_data` fails with a MissingField rejection
exactly when one of temperature, vibration, pressure, machine_id or
timestamp is absent; on a record with all five fields present it fails
with a TypeError rejection exactly when some metric cannot be coerced
by `float()` or the timestamp cannot be coerced by `int()`; otherwise
the record passes. -/
theorem C4_validate (data : List (String × Value)) :
    ((∃ f, validate_transformed_data data = .error (.missingField f)) ↔
      (data.lookup "machine_id" = none ∨ data.lookup "temperature" = none ∨
       data.lookup "vibration" = none ∨ data.lookup "pressure" = none ∨
       data.lookup "timestamp" = none)) ∧
    (validate_transformed_data data = .error .typeError ↔
      (data.lookup "machine_id" ≠ none ∧ data.lookup "temperature" ≠ none ∧
       data.lookup "vibration" ≠ none ∧ data.lookup "pressure" ≠ none ∧
       data.lookup "timestamp" ≠ none ∧
       ((data.lookup "temperature").bind Value.toFloat? = none ∨
        (data.lookup "vibration").bind Value.toFloat? = none ∨
        (data.lookup "pressure").bind Value.toFloat? = none ∨
        (data.lookup "timestamp").bind Value.toInt? = none))) ∧
    (validate_transformed_data data = .ok true ↔
      (data.lookup "machine_id" ≠ none ∧ data.lookup "temperature" ≠ none ∧
       data.lookup "vibration" ≠ none ∧ data.lookup "pressure" ≠ none ∧
       data.lookup "timestamp" ≠ none ∧
       (data.lookup "temperature").bind Value.toFloat? ≠ none ∧
       (data.lookup "vibration").bind Value.toFloat? ≠ none ∧
       (data.lookup "pressure").bind Value.toFloat? ≠ none ∧
       (data.lookup "timestamp").bind Value.toInt? ≠ none)) := by
  unfold validate_transformed_data
  split_ifs with h1 h2 h3 h4 h5 h6 h7 h8 h9 <;>
    simp_all only [Option.isNone_iff_eq_none, Bool.not_eq_true, Except.error.injEq,
      Except.ok.injEq, RejectReason.missingField.injEq, exists_eq, exists_eq',
      reduceCtorEq, not_false_eq_true, not_true_eq_false] <;>
    tauto

/-- Witness for C4 at the concrete well-formed payload: all fields
present and coercible, so validation passes. -/
theorem C4_validate_witness : validate_transformed_data goodPayload = .ok true :=
  (C4_validate goodPayload).2.2.mpr
    ⟨by decide, by decide, by decide, by decide, by decide, by decide, by decide, by decide,
     by decide⟩

/-- C1 counterexample: with a model predictor that fails on every
attempt, the handler does not fall back to a rule-based verdict — the
exception is re-raised after the third attempt and the handler answers
with statusCode 500, having slept 1 + 2 = 3 seconds of backoff.  No
`source = rule` fallback exists anywhere on the classification path. -/
theorem C1_counterexample :
    lambda_handler_classify (fun _ => .error ()) = .failure 500 ∧
    lambda_handler_classify (fun _ => .error ()) ≠ .success 0 ∧
    (invoke_with_retry (fun _ => .error ())).2 = 3 := by
  refine ⟨rfl, ?_, rfl⟩
  intro h
  exact HandlerOutcome.noConfusion h

/-- C1 amended: classification retries up to MAX_RETRIES = 3 attempts
with linearly increasing backoff (sleeping RETRY_DELAY·(attempt+1)
seconds after each non-final failure); the first successful attempt's
prediction is returned, and when all three attempts fail the engine
fails closed: the model error propagates and the handler returns
statusCode 500 instead of any rule-based verdict. -/
theorem C1_retry_fail_closed (p : ℕ → Except Unit ℤ) :
    (p 0 = .error () → p 1 = .error () → p 2 = .error () →
      lambda_handler_classify p = .failure 500 ∧
      (invoke_with_retry p).2 = RETRY_DELAY * 1 + RETRY_DELAY * 2) ∧
    (∀ n, p 0 = .ok n →
      lambda_handler_classify p = .success n ∧ (invoke_with_retry p).2 = 0) ∧
    (∀ n, p 0 = .error () → p 1 = .ok n →
      lambda_handler_classify p = .success n ∧ (invoke_with_retry p).2 = RETRY_DELAY * 1) ∧
    (∀ n, p 0 = .error () → p 1 = .error () → p 2 = .ok n →
      lambda_handler_classify p = .success n ∧
      (invoke_with_retry p).2 = RETRY_DELAY * 1 + RETRY_DELAY * 2) := by
  refine ⟨?_, ?_, ?_, ?_⟩
  · intro h0 h1 h2
    constructor <;>
      simp [lambda_handler_classify, invoke_with_retry, retryFrom, MAX_RETRIES, RETRY_DELAY,
            h0, h1, h2]
  · intro n h0
    constructor <;>
      simp [lambda_handler_classify, invoke_with_retry, retryFrom, MAX_RETRIES, RETRY_DELAY, h0]
  · intro n h0 h1
    constructor <;>
      simp [lambda_handler_classify, invoke_with_retry, retryFrom, MAX_RETRIES, RETRY_DELAY,
            h0, h1]
  · intro n h0 h1 h2
    constructor <;>
      simp [lambda_handler_classify, invoke_with_retry, retryFrom, MAX_RETRIES, RETRY_DELAY,
            h0, h1, h2]

/-- Witness for C1 at a concrete predictor that fails on attempt 0 and
succeeds on attempt 1: the prediction is returned and exactly one
backoff second was slept. -/
theorem C1_retry_fail_closed_witness :
    lambda_handler_classify (fun i => if i = 1 then .ok 7 else .error ()) = .success 7 ∧
    (invoke_with_retry (fun i => if i = 1 then .ok 7 else .error ())).2 = RETRY_DELAY * 1 :=
  (C1_retry_fail_closed (fun i => if i = 1 then .ok 7 else .error ())).2.2.1 7 rfl rfl

/-- C9: per-record failures are isolated in the transformer handler —
the processing loop is exactly a per-record filterMap, so a record on
which parsing, enrichment or validation fails is skipped and the output
for a batch containing it equals the output for the batch without it;
every other record is still processed. -/
theorem C9_record_isolation (now : ℤ) (l1 l2 : List RawRecord) (r : RawRecord)
    (h : process_record now r = none) :
    process_loop now (l1 ++ r :: l2) = process_loop now (l1 ++ l2) ∧
    process_loop now (l1 ++ r :: l2) = (l1 ++ l2).filterMap (process_record now) := by
  have key : ∀ l : List RawRecord, process_loop now l = l.filterMap (process_record now) := by
    intro l
    induction l with
    | nil => rfl
    | cons a t ih =>
      cases hx : process_record now a <;> simp [process_loop, hx, ih]
  constructor <;> simp [key, List.filterMap_append, h]

/-- Witness for C9: a malformed record between two good payloads is
skipped and both payloads are still processed. -/
theorem C9_record_isolation_witness :
    process_loop 0 [.payload goodPayload, .malformed, .payload goodPayload] =
      process_loop 0 [.payload goodPayload, .payload goodPayload] :=
  (C9_record_isolation 0 [.payload goodPayload] [.payload goodPayload] .malformed rfl).1

/-- The good payload with its temperature field removed: used to
contrast `input_fn` with the pipeline validator, which rejects a
missing metric. -/
def payloadNoTemp : List (String × Value) :=
  [("machine_id", .vBadStr "machine_001"), ("vibration", .vNum 1),
   ("pressure", .vNum 100), ("timestamp", .vNum 1000)]

/-- C10 counterexample: a body whose vibration and pressure are absent
is not always turned into a five-element feature vector — with
temperature −0.001 the substituted vibration 0.0 makes the first ratio
denominator −0.001 + ... fine but temperature −0.001 makes the second
denominator 0, so the division raises `ZeroDivisionError` and `input_fn`
propagates the exception instead of producing a vector. -/
theorem C10_counterexample :
    input_fn [("temperature", .vNum (-(1/1000)))] = none ∧
    ([(("temperature" : String), Value.vNum (-(1/1000)))].lookup "vibration" = none) ∧
    ([(("temperature" : String), Value.vNum (-(1/1000)))].lookup "pressure" = none) := by
  refine ⟨?_, rfl, rfl⟩
  have h2 : featureOrDefault [("temperature", Value.vNum (-(1/1000)))] "temperature" =
      some (-(1/1000)) := rfl
  have h3 : featureOrDefault [("temperature", Value.vNum (-(1/1000)))] "vibration" =
      some 0 := rfl
  have h4 : featureOrDefault [("temperature", Value.vNum (-(1/1000)))] "pressure" =
      some 0 := rfl
  unfold input_fn
  rw [h2, h3, h4]
  show (match pydiv (-(1/1000)) ((0 : ℚ) + 1/1000), pydiv 0 ((-(1/1000) : ℚ) + 1/1000) with
        | some a, some b => some [(-(1/1000) : ℚ), 0, 0, a, b]
        | _, _ => none) = none
  have hnz : ((0 : ℚ) + 1/1000) ≠ 0 := by norm_num
  have hz : ((-(1/1000) : ℚ) + 1/1000) = 0 := by norm_num
  unfold pydiv
  rw [if_neg hnz, if_pos hz]

/-- C10 amended: at the model-inference input boundary a missing metric
is never rejected — it is substituted with the default 0.0 — and
whenever the substituted values leave both ratio denominators nonzero
(in particular whenever every supplied metric is nonnegative) a
five-element feature vector is produced; the pipeline validator, by
contrast, rejects a reading with a missing metric with MissingField. -/
theorem C10_missing_default (body : List (String × Value)) (t v p : ℚ)
    (ht : featureOrDefault body "temperature" = some t)
    (hv : featureOrDefault body "vibration" = some v)
    (hp : featureOrDefault body "pressure" = some p)
    (h1 : v + 1/1000 ≠ 0) (h2 : t + 1/1000 ≠ 0) :
    input_fn body = some [t, v, p, t / (v + 1/1000), p / (t + 1/1000)] ∧
    (body.lookup "temperature" = none → t = 0) ∧
    (body.lookup "vibration" = none → v = 0) ∧
    (body.lookup "pressure" = none → p = 0) ∧
    validate_transformed_data payloadNoTemp = .error (.missingField "temperature") := by
  refine ⟨?_, ?_, ?_, ?_, rfl⟩
  · unfold input_fn
    rw [ht, hv, hp]
    show (match pydiv t (v + 1/1000), pydiv p (t + 1/1000) with
          | some a, some b => some [t, v, p, a, b]
          | _, _ => none) = _
    unfold pydiv
    rw [if_neg h1, if_neg h2]
  · intro hnone
    rw [featureOrDefault, hnone] at ht
    exact (Option.some_inj.mp ht).symm
  · intro hnone
    rw [featureOrDefault, hnone] at hv
    exact (Option.some_inj.mp hv).symm
  · intro hnone
    rw [featureOrDefault, hnone] at hp
    exact (Option.some_inj.mp hp).symm

/-- Witness for C10 at a body holding only pressure = 100: temperature
and vibration are substituted with 0.0 and the five-element vector is
produced. -/
theorem C10_missing_default_witness :
    input_fn [("pressure", .vNum 100)] =
      some [0, 0, 100, 0 / ((0 : ℚ) + 1/1000), 100 / ((0 : ℚ) + 1/1000)] :=
  (C10_missing_default [("pressure", .vNum 100)] 0 0 100 rfl rfl rfl
    (by norm_num) (by norm_num)).1

/-- Expansion of the centered sum of squares against the plain sums. -/
theorem sum_sq_sub (l : List ℚ) (m : ℚ) :
    (l.map (fun x => (x - m) ^ 2)).sum =
      (l.map (fun x => x ^ 2)).sum - 2 * m * l.sum + (l.length : ℚ) * m ^ 2 := by
  induction l with
  | nil => simp
  | cons a t ih =>
    simp only [List.map_cons, List.sum_cons, ih, List.length_cons]
    push_cast
    ring

/-- The left fold of `min` lands in the folded list. -/
theorem foldl_min_mem (xs : List ℚ) : ∀ x : ℚ, xs.foldl min x ∈ x :: xs := by
  induction xs with
  | nil => intro x; simp
  | cons y ys ih =>
    intro x
    have h := ih (min x y)
    simp only [List.foldl_cons]
    rcases List.mem_cons.mp h with h1 | h1
    · rcases min_choice x y with hc | hc
      · exact List.mem_cons.mpr (Or.inl (h1.trans hc))
      · exact List.mem_cons.mpr (Or.inr (List.mem_cons.mpr (Or.inl (h1.trans hc))))
    · exact List.mem_cons.mpr (Or.inr (List.mem_cons.mpr (Or.inr h1)))

/-- The left fold of `min` bounds every element of the folded list. -/
theorem foldl_min_le (xs : List ℚ) : ∀ x y : ℚ, y ∈ x :: xs → xs.foldl min x ≤ y := by
  induction xs with
  | nil =>
    intro x y hy
    simp only [List.mem_singleton] at hy
    simp [hy]
  | cons z zs ih =>
    intro x y hy
    simp only [List.foldl_cons]
    rcases List.mem_cons.mp hy with h1 | h1
    · subst h1
      exact le_trans (ih (min y z) (min y z) (List.mem_cons_self _ _)) (min_le_left y z)
    · rcases List.mem_cons.mp h1 with h2 | h2
      · subst h2
        exact le_trans (ih (min x y) (min x y) (List.mem_cons_self _ _)) (min_le_right x y)
      · exact ih (min x z) y (List.mem_cons_of_mem _ h2)

/-- The left fold of `max` lands in the folded list. -/
theorem foldl_max_mem (xs : List ℚ) : ∀ x : ℚ, xs.foldl max x ∈ x :: xs := by
  induction xs with
  | nil => intro x; simp
  | cons y ys ih =>
    intro x
    have h := ih (max x y)
    simp only [List.foldl_cons]
    rcases List.mem_cons.mp h with h1 | h1
    · rcases max_choice x y with hc | hc
      · exact List.mem_cons.mpr (Or.inl (h1.trans hc))
      · exact List.mem_cons.mpr (Or.inr (List.mem_cons.mpr (Or.inl (h1.trans hc))))
    · exact List.mem_cons.mpr (Or.inr (List.mem_cons.mpr (Or.inr h1)))

/-- The left fold of `max` dominates every element of the folded list. -/
theorem foldl_max_ge (xs : List ℚ) : ∀ x y : ℚ, y ∈ x :: xs → y ≤ xs.foldl max x := by
  induction xs with
  | nil =>
    intro x y hy
    simp only [List.mem_singleton] at hy
    simp [hy]
  | cons z zs ih =>
    intro x y hy
    simp only [List.foldl_cons]
    rcases List.mem_cons.mp hy with h1 | h1
    · subst h1
      exact le_trans (le_max_left y z) (ih (max y z) (max y z) (List.mem_cons_self _ _))
    · rcases List.mem_cons.mp h1 with h2 | h2
      · subst h2
        exact le_trans (le_max_right x y) (ih (max x y) (max x y) (List.mem_cons_self _ _))
      · exact ih (max x z) y (List.mem_cons_of_mem _ h2)

/-- `minOf` is invariant under permutation of the list. -/
theorem minOf_perm (l1 l2 : List ℚ) (h : l1.Perm l2) : minOf l1 = minOf l2 := by
  rcases l1 with _ | ⟨x, xs⟩
  · rw [(List.Perm.nil_eq h).symm]
  · rcases l2 with _ | ⟨y, ys⟩
    · have := h.length_eq
      simp at this
    · apply le_antisymm
      · exact foldl_min_le xs x (ys.foldl min y) (h.mem_iff.mpr (foldl_min_mem ys y))
      · exact foldl_min_le ys y (xs.foldl min x) (h.mem_iff.mp (foldl_min_mem xs x))

/-- `maxOf` is invariant under permutation of the list. -/
theorem maxOf_perm (l1 l2 : List ℚ) (h : l1.Perm l2) : maxOf l1 = maxOf l2 := by
  rcases l1 with _ | ⟨x, xs⟩
  · rw [(List.Perm.nil_eq h).symm]
  · rcases l2 with _ | ⟨y, ys⟩
    · have := h.length_eq
      simp at this
    · apply le_antisymm
      · exact foldl_max_ge ys y (xs.foldl max x) (h.mem_iff.mp (foldl_max_mem xs x))
      · exact foldl_max_ge xs x (ys.foldl max y) (h.mem_iff.mpr (foldl_max_mem ys y))

/-- All four statistics of one metric column are invariant under
permutation. -/
theorem statsOf_perm (m1 m2 : List ℚ) (h : m1.Perm m2) : statsOf m1 = statsOf m2 := by
  have hlen := h.length_eq
  have hsum := h.sum_eq
  have hmean : meanOf m1 = meanOf m2 := by
    unfold meanOf
    rw [hsum, hlen]
  have hstd : std_sq m1 = std_sq m2 := by
    unfold std_sq
    rw [hlen, hmean, (h.map (fun x => (x - meanOf m2) ^ 2)).sum_eq]
  unfold statsOf
  rw [hmean, hstd, minOf_perm m1 m2 h, maxOf_perm m1 m2 h]

/-- C8: bucket aggregation is order-insensitive — folding a window of
readings through `calculate_statistical_features` in any order (any
permutation of the input) yields identical summary statistics for every
metric: count-derived mean, (squared) stddev, min and max all agree,
because the underlying accumulations (sum, sum of squares, min, max,
length) are commutative and associative. -/
theorem C8_perm_invariant (l1 l2 : List Reading) (h : l1.Perm l2) :
    calculate_statistical_features l1 = calculate_statistical_features l2 := by
  rcases l1 with _ | ⟨x, xs⟩
  · rw [(List.Perm.nil_eq h).symm]
  · rcases l2 with _ | ⟨y, ys⟩
    · have := h.length_eq
      simp at this
    · simp only [calculate_statistical_features]
      rw [statsOf_perm _ _ (h.map Reading.temperature),
          statsOf_perm _ _ (h.map Reading.vibration),
          statsOf_perm _ _ (h.map Reading.pressure)]

/-- Witness for C8 at a concrete three-reading window and a
permutation of it. -/
theorem C8_perm_invariant_witness :
    calculate_statistical_features [⟨1, 2, 3⟩, ⟨4, 5, 6⟩, ⟨7, 8, 9⟩] =
      calculate_statistical_features [⟨7, 8, 9⟩, ⟨1, 2, 3⟩, ⟨4, 5, 6⟩] :=
  C8_perm_invariant [⟨1, 2, 3⟩, ⟨4, 5, 6⟩, ⟨7, 8, 9⟩] [⟨7, 8, 9⟩, ⟨1, 2, 3⟩, ⟨4, 5, 6⟩]
    (by decide)

/-- C7 counterexample: on the two-reading window with temperatures 0
and 2 the code reports the sample standard deviation sqrt 2 (squared
sample variance 2, denominator n−1 = 1), while the population standard
deviation of the window contents is sqrt 1 (population variance 1,
denominator n = 2); the two differ. -/
theorem C7_counterexample :
    (calculate_statistical_features [(⟨0, 0, 0⟩ : Reading), ⟨2, 0, 0⟩]).map
        (fun s => s.1.fstdSq) = some (std_sq [0, 2]) ∧
    std_sq [0, 2] = 2 ∧
    popVariance [0, 2] = 1 ∧
    Real.sqrt (std_sq [0, 2] : ℚ) ≠ Real.sqrt (popVariance [0, 2] : ℚ) := by
  have hs : std_sq [0, 2] = 2 := by
    unfold std_sq meanOf
    norm_num
  have hp : popVariance [0, 2] = 1 := by
    unfold popVariance meanOf
    norm_num
  refine ⟨rfl, hs, hp, ?_⟩
  rw [hs, hp]
  push_cast
  intro heq
  have h1 : Real.sqrt 1 < Real.sqrt 2 := Real.sqrt_lt_sqrt (by norm_num) (by norm_num)
  rw [heq] at h1
  exact lt_irrefl _ h1

/-- C7 amended: the reported per-metric standard deviation is the
*sample* standard deviation of the window contents (denominator n−1,
the semantics of `statistics.stdev`), guarded so that a window holding
exactly one reading reports stddev = 0 for every metric rather than
raising; for windows of at least two readings the reported squared
value satisfies the standard sum / sum-of-squares identity
n·(n−1)·s² = n·Σx² − (Σx)². -/
theorem C7_sample_std :
    (∀ r : Reading,
      (calculate_statistical_features [r]).isSome = true ∧
      (calculate_statistical_features [r]).map
        (fun s => (s.1.fstdSq, s.2.1.fstdSq, s.2.2.fstdSq)) = some (0, 0, 0)) ∧
    (∀ l : List ℚ, 2 ≤ l.length →
      std_sq l * ((l.length : ℚ) - 1) = (l.map (fun x => (x - meanOf l) ^ 2)).sum ∧
      (l.length : ℚ) * ((l.length : ℚ) - 1) * std_sq l =
        (l.length : ℚ) * (l.map (fun x => x ^ 2)).sum - l.sum ^ 2) := by
  constructor
  · intro r
    exact ⟨rfl, rfl⟩
  · intro l hl
    have hlen : (1 : ℕ) < l.length := hl
    have hn : (l.length : ℚ) ≠ 0 := by
      have : (0 : ℕ) < l.length := by omega
      exact_mod_cast Nat.pos_iff_ne_zero.mp this
    have hn1 : ((l.length : ℚ) - 1) ≠ 0 := by
      have h2 : (2 : ℚ) ≤ (l.length : ℚ) := by exact_mod_cast hl
      intro hz
      rw [sub_eq_zero] at hz
      rw [hz] at h2
      norm_num at h2
    have hstd : std_sq l = ((l.map (fun x => (x - meanOf l) ^ 2)).sum) / ((l.length : ℚ) - 1) := by
      unfold std_sq
      rw [if_pos hlen]
    constructor
    · rw [hstd, div_mul_cancel₀ _ hn1]
    · rw [hstd, sum_sq_sub]
      unfold meanOf
      field_simp
      ring

/-- Witness for C7 at the concrete window [0, 2]: the sample-variance
identity instantiated (and, per the first clause, a singleton window
reports zero stddev for every metric). -/
theorem C7_sample_std_witness :
    (calculate_statistical_features [(⟨5, 6, 7⟩ : Reading)]).map
        (fun s => (s.1.fstdSq, s.2.1.fstdSq, s.2.2.fstdSq)) = some (0, 0, 0) ∧
    std_sq [(0 : ℚ), 2] * (([(0 : ℚ), 2].length : ℚ) - 1) =
      ([(0 : ℚ), 2].map (fun x => (x - meanOf [(0 : ℚ), 2]) ^ 2)).sum :=
  ⟨(C7_sample_std.1 ⟨5, 6, 7⟩).2, (C7_sample_std.2 [(0 : ℚ), 2] (by norm_num)).1⟩

end IotPipeline
